import Mathlib

/-!
# Verification of the cinema seat-booking backend

A shallow embedding of the seat-reservation core of the repository:
the seat/showtime/booking document schemas (`src/models`, the
mongoose schema file with `ShowtimeSchema`/`SeatSchema`/`BookingSchema`),
`SeatService` (src/services/seat.service.ts), `BookingService`
(src/services/booking.service.ts), `ShowtimeService`
(src/services/showtime.service.ts), the `SeatCleanupJob`
(src/jobs/seat-cleanup.job.ts) and the connection registry of
`WebSocketManager` (src/patterns/singleton/WebSocketManager.ts).

Persisted collections are lists of records; Mongo `_id`s are `Nat`;
times are `Nat` milliseconds since the epoch.  Each service method
becomes a function from the store state (plus its inputs and the
current time) to the new store state together with an `Except` result:
a thrown `Error` is `.error e`, a normal return is `.ok v`.
-/

set_option maxRecDepth 10000

namespace MovieBackend

/-- Seat status enum of `SeatSchema` (`"reserved" | "booked" | "available"`). -/
inductive SeatStatus
  | available
  | reserved
  | booked
  deriving DecidableEq

/-- Seat class enum of `SeatSchema` (`"standard" | "premium" | "vip"`). -/
inductive SeatType
  | standard
  | premium
  | vip
  deriving DecidableEq

/-- The per-class price table of `ShowtimeSchema.price`. -/
structure Price where
  standard : Nat
  premium : Nat
  vip : Nat
  deriving DecidableEq

/-- `showtime.price[seatType]` — look a seat class up in the price table. -/
def priceFor (p : Price) : SeatType → Nat
  | .standard => p.standard
  | .premium => p.premium
  | .vip => p.vip

/-- A document of the `Seat` collection (`SeatSchema`). -/
structure Seat where
  id : Nat
  screenId : Nat
  row : String
  seatNumber : Nat
  seatType : SeatType
  isActive : Bool
  showtimeId : Nat
  bookingId : Option Nat
  status : SeatStatus
  expiresAt : Option Nat
  deriving DecidableEq

/-- A document of the `Showtime` collection (`ShowtimeSchema`). -/
structure Showtime where
  id : Nat
  movieId : Nat
  screenId : Nat
  startTime : Nat
  endTime : Nat
  price : Price
  isActive : Bool
  deriving DecidableEq

/-- Payment status enum of `BookingSchema.paymentStatus`. -/
inductive PaymentStatus
  | pending
  | completed
  | failed
  | refunded
  deriving DecidableEq

/-- Booking status enum of `BookingSchema.bookingStatus`. -/
inductive BookingStatus
  | reserved
  | confirmed
  | cancelled
  deriving DecidableEq

/-- A document of the `Booking` collection (`BookingSchema`). -/
structure Booking where
  id : Nat
  userId : Nat
  showtimeId : Nat
  seats : List Nat
  totalAmount : Nat
  paymentStatus : PaymentStatus
  bookingStatus : BookingStatus
  paymentMethod : String
  transactionId : Option Nat
  bookedAt : Nat
  deriving DecidableEq

/-- The slice of a `Movie` document that `ShowtimeService.createShowtime`
reads (duration in minutes, active flag). -/
structure Movie where
  id : Nat
  duration : Nat
  isActive : Bool
  deriving DecidableEq

/-- The persistent store plus the process-local booking-countdown timers:
`seats`, `showtimes`, `bookings`, `movies` and `users` are the Mongo
collections touched by the embedded services (users are reduced to their
ids, which is all `BookingService` branches on); `timers` is the set of
active `(bookingId, expiresAt)` countdowns held by the WebSocket layer
(`startBookingTimer` / `stopBookingTimer`); `nextId` supplies fresh
document ids. -/
structure DB where
  seats : List Seat
  showtimes : List Showtime
  bookings : List Booking
  movies : List Movie
  users : List Nat
  timers : List (Nat × Nat)
  nextId : Nat
  deriving DecidableEq

/-- The thrown `Error`s of the embedded services, one constructor per
distinct message. -/
inductive Err
  | missingInfo          -- 'Missing required booking information'
  | showtimeNotFound     -- 'Showtime not found'
  | showtimeInactive     -- 'This showtime is no longer available'
  | showtimeStarted      -- 'This showtime has already started'
  | seatUnavailable      -- 'One or more selected seats are not available'
  | seatsMismatch        -- 'All seats must belong to the same showtime' (pre-save hook)
  | createFailed         -- 'Failed to create booking: ...' wrapper
  | bookingNotFound      -- 'Booking not found'
  | alreadyProcessed     -- 'Payment has already been processed for this booking'
  | paymentFailed        -- 'Payment failed: ...' / 'Payment processing failed: ...'
  | seatTaken            -- 'Ghế này đã được đặt' (seat already taken, seat.service)
  | movieNotFound        -- 'Movie not found'
  | movieInactive        -- 'Cannot create showtime for inactive movie'
  | invalidEndTime       -- 'endTime must be greater than startTime' (pre-validate)
  | duplicateShowtime    -- duplicate-key error of the unique showtime index
  deriving DecidableEq

instance {ε α : Type _} [DecidableEq ε] [DecidableEq α] :
    DecidableEq (Except ε α) := fun x y =>
  match x, y with
  | .ok a, .ok b =>
    if h : a = b then .isTrue (by rw [h]) else .isFalse (fun hc => h (Except.ok.inj hc))
  | .error a, .error b =>
    if h : a = b then .isTrue (by rw [h]) else .isFalse (fun hc => h (Except.error.inj hc))
  | .ok _, .error _ => .isFalse (fun hc => Except.noConfusion hc)
  | .error _, .ok _ => .isFalse (fun hc => Except.noConfusion hc)

/-- `BOOKING_TIMEOUT_MINUTES = 15` (booking.service.ts) and the 15-minute
hold of `SeatService.reserveSeat` (`15 * 60 * 1000` ms). -/
def HOLD_TTL_MS : Nat := 15 * 60 * 1000

/-- `CLEANUP_INTERVAL = 60000` ms (seat-cleanup.job.ts): the sweep runs
every minute. -/
def CLEANUP_INTERVAL_MS : Nat := 60000

/-- Replace the first element satisfying `p` (the single-document update
of a mongoose `doc.save()` / `findOneAndUpdate`). -/
def replaceFirst (p : α → Bool) (a : α) : List α → List α
  | [] => []
  | x :: xs => if p x then a :: xs else x :: replaceFirst p a xs

/-- The query filter `{ _id: seatId, showtimeId }` used by
`SeatService.reserveSeat` / `bookSeat` / `releaseSeat`. -/
def seatMatches (seatId showtimeId : Nat) (s : Seat) : Bool :=
  s.id == seatId && s.showtimeId == showtimeId

/-- `SeatService.reserveSeat` (seat.service.ts lines 40-68): load the seat
by `{_id, showtimeId}` (returns `none` when absent), throw when its status is
not `available`, otherwise save it back with status `reserved` and
`expiresAt = now + 15 minutes`.  The WebSocket broadcast has no effect on
the store. -/
def reserveSeat (db : DB) (now seatId showtimeId : Nat) :
    DB × Except Err (Option Seat) :=
  match db.seats.find? (seatMatches seatId showtimeId) with
  | none => (db, .ok none)
  | some seat =>
    if seat.status != .available then (db, .error .seatTaken)
    else
      let seat' := { seat with status := .reserved, expiresAt := some (now + HOLD_TTL_MS) }
      ({ db with seats := replaceFirst (seatMatches seatId showtimeId) seat' db.seats },
       .ok (some seat'))

/-- `SeatService.releaseSeat` (seat.service.ts lines 97-121):
`findOneAndUpdate({_id, showtimeId}, {status: 'available', $unset:
{bookingId, expiresAt}})` — no status precondition; `none` when the seat
is not found. -/
def releaseSeat (db : DB) (seatId showtimeId : Nat) : DB × Option Seat :=
  match db.seats.find? (seatMatches seatId showtimeId) with
  | none => (db, none)
  | some seat =>
    let seat' := { seat with status := .available, bookingId := none, expiresAt := none }
    ({ db with seats := replaceFirst (seatMatches seatId showtimeId) seat' db.seats },
     some seat')

/-- The filter of `SeatService.releaseExpiredSeats`:
`{ status: 'reserved', expiresAt: { $lt: now } }`. -/
def isExpired (now : Nat) (s : Seat) : Bool :=
  s.status == .reserved &&
    match s.expiresAt with
    | some e => decide (e < now)
    | none => false

/-- The `updateOne` applied by `releaseExpiredSeats` to each expired seat:
status `available`, `$unset: { bookingId, expiresAt }`. -/
def clearSeat (s : Seat) : Seat :=
  { s with status := .available, bookingId := none, expiresAt := none }

/-- One seat's fate under a sweep at time `now`. -/
def sweepSeat (now : Nat) (s : Seat) : Seat :=
  if isExpired now s then clearSeat s else s

/-- `SeatService.releaseExpiredSeats` (seat.service.ts lines 124-153), the
body of the `SeatCleanupJob` tick: every seat with status `reserved` and
`expiresAt` strictly in the past is reset to `available` with `bookingId`
and `expiresAt` unset; nothing else in the store is touched (in
particular no `Booking` document is updated). -/
def releaseExpiredSeats (db : DB) (now : Nat) : DB :=
  { db with seats := db.seats.map (sweepSeat now) }

/-- `ShowtimeService.createShowtime` (showtime.service.ts lines 39-66)
composed with the mongoose save of `ShowtimeSchema`: look the movie up,
reject an inactive movie, compute `endTime = startTime + (duration + 30)
minutes` (30-minute buffer), run the schema's pre-validate hook
(`endTime` must exceed `startTime`) and the unique partial index on
`(screenId, startTime, endTime)` over active showtimes — the only overlap
guard the schema declares — then insert the showtime and clone every
active seat of the screen into showtime-scoped `available` rows
(`initializeSeatAvailability`). -/
def createShowtime (db : DB) (movieId screenId startTime : Nat) (price : Price) :
    DB × Except Err Showtime :=
  match db.movies.find? (fun m => m.id == movieId) with
  | none => (db, .error .movieNotFound)
  | some movie =>
    if !movie.isActive then (db, .error .movieInactive)
    else
      let endTime := startTime + (movie.duration + 30) * 60000
      if endTime ≤ startTime then (db, .error .invalidEndTime)
      else if db.showtimes.any (fun o =>
          o.isActive && o.screenId == screenId && o.startTime == startTime
            && o.endTime == endTime) then
        (db, .error .duplicateShowtime)
      else
        let st : Showtime :=
          { id := db.nextId, movieId, screenId, startTime, endTime, price, isActive := true }
        let screenSeats := db.seats.filter (fun s => s.screenId == screenId && s.isActive)
        let newSeats := screenSeats.enum.map (fun ks =>
          { id := db.nextId + 1 + ks.1, screenId := ks.2.screenId, row := ks.2.row,
            seatNumber := ks.2.seatNumber, seatType := ks.2.seatType, isActive := true,
            showtimeId := st.id, bookingId := none, status := .available,
            expiresAt := none : Seat })
        ({ db with showtimes := db.showtimes ++ [st],
                   seats := db.seats ++ newSeats,
                   nextId := db.nextId + 1 + newSeats.length }, .ok st)

/-- `ShowtimeRepository.update` as invoked to change a showtime's price
table (`findByIdAndUpdate` of the single document with that id; booking
and seat documents are not touched). -/
def updateShowtimePrice (db : DB) (showtimeId : Nat) (p : Price) : DB :=
  { db with showtimes :=
      db.showtimes.map (fun s => if s.id == showtimeId then { s with price := p } else s) }

/-- A ticket produced by the factory: a seat class and a price. -/
structure Ticket where
  seatType : SeatType
  price : Nat
  deriving DecidableEq

/-- Modelled from the spec: `TicketFactory`
(src/patterns/factory/TicketFactory) is invoked by `BookingService` but
its implementation is not among the sources.  The spec prices a booking
as the "sum, per seat, the showtime's price for that seat's class", so
the factory returns a ticket priced at exactly the class price passed to
it. -/
def createTicket (seatType : SeatType) (price : Nat) : Ticket :=
  ⟨seatType, price⟩

/-- Modelled from the spec: the observer-pattern notifier
(src/patterns/observer/NotificationSystem) is invoked by `BookingService`
but its implementation is not among the sources.  The spec states
"Notification-dispatch failures are logged and swallowed; they must never
fail a booking operation": dispatching an event returns the log of failed
channels and never an error, even when the underlying dispatch fails. -/
def notifyDispatch (event : String) (dispatchFails : Bool) :
    Except String (List String) :=
  .ok (if dispatchFails then [event ++ ": dispatch failed (logged)"] else [])

/-- The notification step of `createBooking`: the event is dispatched only
when the user document exists (`if (user) { ... notify(...) }`). -/
def notifyStep (userExists : Bool) (event : String) (dispatchFails : Bool) :
    Except String (List String) :=
  if userExists then notifyDispatch event dispatchFails else .ok []

/-- The request body of `BookingService.createBooking`. -/
structure BookingRequest where
  userId : Nat
  showtimeId : Nat
  seatIds : List Nat
  paymentMethod : String
  deriving DecidableEq

/-- The seat class used when pricing seat `sid` in
`BookingService.createBooking`: `Seat.findById(seatId)` (no showtime
filter), defaulting to `standard` when the document is absent. -/
def seatTypeOf (db : DB) (sid : Nat) : SeatType :=
  match db.seats.find? (fun s => s.id == sid) with
  | some s => s.seatType
  | none => .standard

/-- The `totalAmount` loop of `createBooking`: per seat id, a ticket is
created for the showtime's price of that seat's class and its price is
accumulated. -/
def bookingTotal (db : DB) (st : Showtime) (seatIds : List Nat) : Nat :=
  (seatIds.map (fun sid =>
    (createTicket (seatTypeOf db sid) (priceFor st.price (seatTypeOf db sid))).price)).sum

/-- The availability filter of `createBooking`:
`{_id: {$in: seatIds}, showtimeId, status: {$ne: 'available'}}`. -/
def unavailableIn (db : DB) (seatIds : List Nat) (showtimeId : Nat) : List Seat :=
  db.seats.filter (fun s =>
    decide (s.id ∈ seatIds) && s.showtimeId == showtimeId && s.status != .available)

/-- The `BookingSchema.pre('save')` query:
`{_id: {$in: seats}, showtimeId}` over the stored seats. -/
def seatsOfShowtimeIn (db : DB) (seatIds : List Nat) (showtimeId : Nat) : List Seat :=
  db.seats.filter (fun s => decide (s.id ∈ seatIds) && s.showtimeId == showtimeId)

/-- `BookingService.createBooking` (booking.service.ts lines 36-150).
Steps, in source order: reject an empty seat list ('Missing required
booking information'); load the showtime (`NotFound` / inactive / already
started); query the seats of the request that are *not* `available` and
throw 'One or more selected seats are not available' when any exists;
price the booking via the ticket factory; compute `expiresAt = now + 15
minutes`; persist the booking in `reserved`/`pending` — running
`BookingSchema`'s pre-save hook, which re-queries the listed seats of
this showtime and rejects the save when fewer documents come back than
ids were listed; commit; emit `booking.created` when the user exists
(failures swallowed by the notifier); start the countdown timer; return
the booking.  Every thrown error aborts the transaction, leaving the
store unchanged.  Note that no seat document is updated anywhere on this
path. -/
def createBooking (db : DB) (req : BookingRequest) (now : Nat) (notifyFails : Bool) :
    DB × Except Err Booking :=
  if req.seatIds.isEmpty then (db, .error .missingInfo)
  else
    match db.showtimes.find? (fun s => s.id == req.showtimeId) with
    | none => (db, .error .showtimeNotFound)
    | some st =>
      if !st.isActive then (db, .error .showtimeInactive)
      else if st.startTime < now then (db, .error .showtimeStarted)
      else if !(unavailableIn db req.seatIds req.showtimeId).isEmpty then
        (db, .error .seatUnavailable)
      else
        let totalAmount := bookingTotal db st req.seatIds
        let expiresAt := now + HOLD_TTL_MS
        if (seatsOfShowtimeIn db req.seatIds req.showtimeId).length != req.seatIds.length then
          (db, .error .seatsMismatch)
        else
          let booking : Booking :=
            { id := db.nextId, userId := req.userId, showtimeId := req.showtimeId,
              seats := req.seatIds, totalAmount, paymentStatus := .pending,
              bookingStatus := .reserved, paymentMethod := req.paymentMethod,
              transactionId := none, bookedAt := now }
          let committed :=
            { db with bookings := db.bookings ++ [booking], nextId := db.nextId + 1 }
          match notifyStep (db.users.contains req.userId) "booking.created" notifyFails with
          | .error _ => (committed, .error .createFailed)
          | .ok _ =>
            ({ committed with timers := committed.timers ++ [(booking.id, expiresAt)] },
             .ok booking)

/-- The outcome of the payment collaborator (strategy pattern):
`{success, transactionId, message}`. -/
structure PaymentResult where
  success : Bool
  transactionId : Option Nat
  message : String
  deriving DecidableEq

/-- `BookingService.processPayment` (booking.service.ts lines 152-240):
load the booking ('Booking not found'); reject when `paymentStatus` is
already `completed`; invoke the payment collaborator.  On decline the
booking is updated to `paymentStatus: 'failed'` (its `bookingStatus` and
the countdown timer are untouched) and 'Payment failed' is thrown
(re-wrapped by the catch as 'Payment processing failed').  On success the
booking is updated to `completed`/`confirmed` with the transaction id and
the countdown timer is stopped (`stopBookingTimer`). -/
def processPayment (db : DB) (bookingId : Nat) (pay : PaymentResult) :
    DB × Except Err Booking :=
  match db.bookings.find? (fun b => b.id == bookingId) with
  | none => (db, .error .bookingNotFound)
  | some booking =>
    if booking.paymentStatus == .completed then (db, .error .alreadyProcessed)
    else if pay.success then
      let b' := { booking with
        paymentStatus := .completed, bookingStatus := .confirmed,
        transactionId := pay.transactionId }
      ({ db with bookings := replaceFirst (fun b => b.id == bookingId) b' db.bookings,
                 timers := db.timers.filter (fun t => t.1 != bookingId) }, .ok b')
    else
      let b' := { booking with paymentStatus := .failed }
      ({ db with bookings := replaceFirst (fun b => b.id == bookingId) b' db.bookings },
       .error .paymentFailed)

/-- The connection registry of `WebSocketManager`
(src/patterns/singleton/WebSocketManager.ts): `clients` is the
`Map<userId, Client>` — one entry per user id, holding the ws of that
user's single registered connection — and `openConns` is the set of
websocket connections currently open. -/
structure WSState where
  clients : List (Nat × Nat)
  openConns : List Nat
  deriving DecidableEq

/-- `WebSocketManager.registerClient` (WebSocketManager.ts lines 96-119):
when the user already has an entry, its existing connection is *closed*
(`existingClient.ws.close(1000, 'New connection established')`) and the
entry is overwritten with the new ws; otherwise a fresh entry is added.
The newly accepted connection is open. -/
def registerClient (st : WSState) (userId wsId : Nat) : WSState :=
  match st.clients.find? (fun p => p.1 == userId) with
  | some p =>
    { clients := replaceFirst (fun q => q.1 == userId) (userId, wsId) st.clients,
      openConns := wsId :: st.openConns.filter (fun w => w != p.2) }
  | none =>
    { clients := st.clients ++ [(userId, wsId)],
      openConns := wsId :: st.openConns }

/-- `WebSocketManager.sendToUser` (WebSocketManager.ts lines 135-144):
the payload is sent to the single connection stored for the user, when
present and open — the returned list is the set of connection ids the
payload reaches. -/
def sendToUser (st : WSState) (userId : Nat) : List Nat :=
  match st.clients.find? (fun p => p.1 == userId) with
  | some p => if st.openConns.contains p.2 then [p.2] else []
  | none => []

/-- The `[start, end)` intervals of two showtimes intersect. -/
def overlaps (a b : Showtime) : Prop :=
  a.startTime < b.endTime ∧ b.startTime < a.endTime

instance (a b : Showtime) : Decidable (overlaps a b) :=
  inferInstanceAs (Decidable (a.startTime < b.endTime ∧ b.startTime < a.endTime))

/-- A sequence of `SeatCleanupJob` ticks at the given instants. -/
def sweepRun (db : DB) (times : List Nat) : DB :=
  times.foldl releaseExpiredSeats db

/-! ## Concrete scenarios used by the evaluations and witnesses -/

/-- An active showtime with a far-future start, used by the concrete
scenarios (standard 100, premium 150, vip 200). -/
def exShowtime : Showtime :=
  ⟨1, 1, 1, 1000000000, 1007500000, ⟨100, 150, 200⟩, true⟩

/-- An `available` seat of `exShowtime`. -/
def exSeat : Seat := ⟨10, 1, "A", 1, .standard, true, 1, none, .available, none⟩

/-- A store holding one available seat of one active future showtime. -/
def exDB : DB := ⟨[exSeat], [exShowtime], [], [], [], [], 50⟩

/-- A booking request of user `u` for seat 10 of showtime 1. -/
def exReq (u : Nat) : BookingRequest := ⟨u, 1, [10], "cash"⟩

/-- A request whose seat list repeats seat 10. -/
def c10Req : BookingRequest := ⟨7, 1, [10, 10], "cash"⟩

/-- A seat reserved at time 0 (hold deadline `HOLD_TTL_MS`) for booking 5. -/
def c3Seat : Seat :=
  ⟨20, 1, "B", 1, .standard, true, 1, some 5, .reserved, some HOLD_TTL_MS⟩

/-- The pending booking owning `c3Seat`, never confirmed or cancelled. -/
def c3Booking : Booking := ⟨5, 7, 1, [20], 100, .pending, .reserved, "cash", none, 0⟩

/-- A store in which booking 5 holds seat 20 with the hold taken at time 0
and the in-memory timer lost (crash/restart): only the sweeper acts. -/
def c3DB : DB := ⟨[c3Seat], [exShowtime], [c3Booking], [], [], [], 50⟩

/-- A pending booking awaiting payment. -/
def c5Booking : Booking := ⟨5, 7, 1, [10], 100, .pending, .reserved, "cash", none, 0⟩

/-- A store holding the pending booking and its live countdown timer. -/
def c5DB : DB := ⟨[exSeat], [exShowtime], [c5Booking], [], [], [(5, HOLD_TTL_MS)], 50⟩

/-- A declined payment outcome. -/
def payDeclined : PaymentResult := ⟨false, none, "declined"⟩

/-- Two available seats of different classes for the pricing scenario. -/
def c4SeatA : Seat := ⟨11, 1, "A", 1, .standard, true, 1, none, .available, none⟩

/-- The vip seat of the pricing scenario. -/
def c4SeatB : Seat := ⟨12, 1, "A", 2, .vip, true, 1, none, .available, none⟩

/-- Store for the pricing scenario: one standard and one vip seat. -/
def c4DB : DB := ⟨[c4SeatA, c4SeatB], [exShowtime], [], [], [], [], 60⟩

/-- Booking request for both pricing-scenario seats. -/
def c4Req : BookingRequest := ⟨7, 1, [11, 12], "card"⟩

/-- The booking `createBooking` produces for `c4Req` (100 + 200 = 300). -/
def c4Booking : Booking :=
  ⟨60, 7, 1, [11, 12], 300, .pending, .reserved, "card", none, 0⟩

/-- The store after the pricing-scenario booking commits. -/
def c4DBafter : DB :=
  ⟨[c4SeatA, c4SeatB], [exShowtime], [c4Booking], [], [], [(60, HOLD_TTL_MS)], 61⟩

/-- The price table of the overlap scenario. -/
def c8Price : Price := ⟨100, 150, 200⟩

/-- A store holding one active 90-minute movie and nothing else. -/
def c8DB : DB := ⟨[], [], [], [⟨1, 90, true⟩], [], [], 1⟩

/-- First created showtime: screen 1, `[0, 7200000)` ((90+30) min). -/
def c8stA : Showtime := ⟨1, 1, 1, 0, 7200000, c8Price, true⟩

/-- Second created showtime: screen 1, `[3600000, 10800000)`. -/
def c8stB : Showtime := ⟨2, 1, 1, 3600000, 10800000, c8Price, true⟩

/-- First `createShowtime` call of the overlap scenario. -/
def c8run1 : DB × Except Err Showtime := createShowtime c8DB 1 1 0 c8Price

/-- Second call: same screen, start one hour into the first screening. -/
def c8run2 : DB × Except Err Showtime := createShowtime c8run1.1 1 1 3600000 c8Price

/-- Third call: the exact `(screenId, startTime, endTime)` triple of the
first — the only shape the unique index rejects. -/
def c8run3 : DB × Except Err Showtime := createShowtime c8run2.1 1 1 0 c8Price

/-- An empty connection registry. -/
def wsEmpty : WSState := ⟨[], []⟩

/-! ## Helper lemmas about the list-level store operations -/

/-- Writing back the very document `find?` located is a no-op. -/
theorem replaceFirst_self {p : α → Bool} {l : List α} {a : α}
    (h : l.find? p = some a) : replaceFirst p a l = l := by
  induction l with
  | nil => rfl
  | cons x xs ih =>
    by_cases hp : p x
    · rw [List.find?_cons_of_pos _ hp] at h
      cases h
      simp [replaceFirst, hp]
    · rw [List.find?_cons_of_neg _ hp] at h
      simp [replaceFirst, hp, ih h]

/-- After replacing the first match with a document that still matches,
`find?` returns the replacement. -/
theorem find?_replaceFirst_self {p : α → Bool} {l : List α} {a b : α}
    (h : l.find? p = some a) (hb : p b = true) :
    (replaceFirst p b l).find? p = some b := by
  induction l with
  | nil => simp [List.find?] at h
  | cons x xs ih =>
    by_cases hp : p x
    · simp [replaceFirst, hp, List.find?_cons_of_pos _ hb]
    · rw [List.find?_cons_of_neg _ hp] at h
      simp [replaceFirst, hp, List.find?_cons_of_neg _ hp, ih h]

/-- `find?` commutes with a map that does not disturb the predicate. -/
theorem find?_map_of_pred {f : α → α} {p : α → Bool} (l : List α)
    (hf : ∀ x, p (f x) = p x) :
    (l.map f).find? p = (l.find? p).map f := by
  induction l with
  | nil => rfl
  | cons x xs ih =>
    by_cases hp : p x
    · rw [List.map_cons, List.find?_cons_of_pos _ (by rw [hf]; exact hp),
        List.find?_cons_of_pos _ hp]
      rfl
    · rw [List.map_cons, List.find?_cons_of_neg _ (by rw [hf]; exact hp),
        List.find?_cons_of_neg _ hp, ih]

/-- In a collection whose ids are distinct, `find?` by id returns exactly
the member that carries that id. -/
theorem find?_id_eq_of_mem {l : List Seat} (hn : (l.map Seat.id).Nodup)
    {s : Seat} {i : Nat} (hs : s ∈ l) (hi : s.id = i) :
    l.find? (fun t => t.id == i) = some s := by
  induction l with
  | nil => cases hs
  | cons x xs ih =>
    rw [List.map_cons, List.nodup_cons] at hn
    rcases List.mem_cons.mp hs with h | h
    · subst h
      exact List.find?_cons_of_pos _ (by simp [hi])
    · have hx : x.id ≠ i := by
        intro hxi
        apply hn.1
        have : s.id ∈ xs.map Seat.id := List.mem_map_of_mem Seat.id h
        rwa [hi, ← hxi] at this
      rw [List.find?_cons_of_neg _ (by simp [hx]), ih hn.2 h]

/-- Counting argument behind the `BookingSchema` pre-save hook: when the
stored seat ids are distinct, the hook's query returns strictly fewer
documents than the listed ids whenever the list holds a duplicate or an
id with no seat of the given showtime. -/
theorem seatsOfShowtimeIn_length_ne (db : DB) (ids : List Nat) (stId : Nat)
    (hn : (db.seats.map Seat.id).Nodup)
    (hbad : ¬ ids.Nodup ∨
      ∃ i ∈ ids, ∀ s ∈ db.seats, ¬(s.id = i ∧ s.showtimeId = stId)) :
    (seatsOfShowtimeIn db ids stId).length ≠ ids.length := by
  classical
  set F := seatsOfShowtimeIn db ids stId with hF
  have hsub : F.Sublist db.seats := List.filter_sublist db.seats
  have hnodupF : (F.map Seat.id).Nodup := (hsub.map Seat.id).nodup hn
  have hmemF : ∀ s ∈ F, s.id ∈ ids ∧ s.showtimeId = stId ∧ s ∈ db.seats := by
    intro s hsF
    have hmem := List.mem_filter.mp hsF
    refine ⟨?_, ?_, hmem.1⟩
    · have := hmem.2
      simp only [Bool.and_eq_true, decide_eq_true_eq, beq_iff_eq] at this
      exact this.1
    · have := hmem.2
      simp only [Bool.and_eq_true, decide_eq_true_eq, beq_iff_eq] at this
      exact this.2
  have hlenF : F.length = (F.map Seat.id).toFinset.card := by
    rw [List.toFinset_card_of_nodup hnodupF, List.length_map]
  rcases hbad with hdup | ⟨i, hiids, hmiss⟩
  · have hcard : (F.map Seat.id).toFinset ⊆ ids.toFinset := by
      intro x hx
      rw [List.mem_toFinset] at hx ⊢
      obtain ⟨s, hsF, rfl⟩ := List.mem_map.mp hx
      exact (hmemF s hsF).1
    have hdl : ids.dedup.length < ids.length := by
      rcases Nat.lt_or_ge ids.dedup.length ids.length with h | h
      · exact h
      · exfalso
        apply hdup
        have hlen : ids.dedup.length = ids.length :=
          Nat.le_antisymm (List.Sublist.length_le (List.dedup_sublist ids)) h
        have := (List.dedup_sublist ids).eq_of_length hlen
        rw [← this]
        exact List.nodup_dedup ids
    intro hcontra
    have : F.length ≤ ids.dedup.length := by
      rw [hlenF, ← List.card_toFinset]
      exact Finset.card_le_card hcard
    omega
  · have hcard : (F.map Seat.id).toFinset ⊆ ids.toFinset.erase i := by
      intro x hx
      rw [List.mem_toFinset] at hx
      obtain ⟨s, hsF, rfl⟩ := List.mem_map.mp hx
      obtain ⟨hin, hshow, hdb⟩ := hmemF s hsF
      rw [Finset.mem_erase, List.mem_toFinset]
      refine ⟨?_, hin⟩
      intro hsi
      exact hmiss s hdb ⟨hsi, hshow⟩
    have hi : i ∈ ids.toFinset := List.mem_toFinset.mpr hiids
    have hpos : 0 < ids.toFinset.card := Finset.card_pos.mpr ⟨i, hi⟩
    have h1 : F.length ≤ ids.toFinset.card - 1 := by
      rw [hlenF, ← Finset.card_erase_of_mem hi]
      exact Finset.card_le_card hcard
    have h2 : ids.toFinset.card ≤ ids.length := ids.toFinset_card_le
    omega

/-- The modelled notifier never produces an error, whatever the fate of
the underlying dispatch. -/
theorem notifyStep_ok (c : Bool) (ev : String) (nf : Bool) :
    ∃ l, notifyStep c ev nf = .ok l := by
  unfold notifyStep notifyDispatch
  split <;> exact ⟨_, rfl⟩

/-- Every branch of `createBooking` on which the pre-save hook's count
disagrees with the request's list length ends in a thrown error with the
store unchanged (the transaction is aborted). -/
theorem createBooking_error_of_mismatch (db : DB) (req : BookingRequest)
    (now : Nat) (nf : Bool)
    (h : (seatsOfShowtimeIn db req.seatIds req.showtimeId).length ≠ req.seatIds.length) :
    ∃ e, createBooking db req now nf = (db, .error e) := by
  unfold createBooking
  split
  · exact ⟨_, rfl⟩
  · split
    · exact ⟨_, rfl⟩
    · split
      · exact ⟨_, rfl⟩
      · split
        · exact ⟨_, rfl⟩
        · split
          · exact ⟨_, rfl⟩
          · split
            · exact ⟨_, rfl⟩
            · rename_i hlen
              exfalso
              apply h
              simpa using hlen

/-- Inversion of a successful `createBooking`: the store gained exactly
the returned booking (no seat was touched), the booking repeats the
request's seat list, its total is the ticket-factory sum, and the
pre-save hook's count matched. -/
theorem createBooking_ok_inv {db : DB} {req : BookingRequest} {now : Nat}
    {nf : Bool} {db' : DB} {b : Booking} {st : Showtime}
    (hst : db.showtimes.find? (fun s => s.id == req.showtimeId) = some st)
    (h : createBooking db req now nf = (db', .ok b)) :
    b.seats = req.seatIds
    ∧ b.totalAmount = bookingTotal db st req.seatIds
    ∧ (seatsOfShowtimeIn db req.seatIds req.showtimeId).length = req.seatIds.length
    ∧ db'.bookings = db.bookings ++ [b]
    ∧ db'.seats = db.seats ∧ db'.showtimes = db.showtimes := by
  obtain ⟨lg, hlg⟩ := notifyStep_ok (db.users.contains req.userId) "booking.created" nf
  unfold createBooking at h
  rw [hlg] at h
  split at h
  · simp at h
  · split at h
    · simp at h
    · rename_i st' heq
      rw [hst] at heq
      cases heq
      split at h
      · simp at h
      · split at h
        · simp at h
        · split at h
          · simp at h
          · split at h
            · simp at h
            · rename_i hlen
              split at h
              · rename_i a heq2
                exact Except.noConfusion heq2
              · simp only [Prod.mk.injEq, Except.ok.injEq] at h
                obtain ⟨hdb, hb⟩ := h
                subst hdb
                subst hb
                refine ⟨rfl, rfl, by simpa using hlen, rfl, rfl, rfl⟩

/-! ## Claim theorems -/

/-- C1.  The claim "for any two reserve/createBooking attempts whose seat
sets for the same showtime overlap, at most one attempt succeeds per
shared seat" fails on the code: `createBooking` checks availability but
never flips any seat out of `available`, so two successive calls booking
the very same seat of the same showtime both succeed. -/
theorem c1_successive_bookings_both_succeed :
    (createBooking exDB (exReq 7) 0 false).2.isOk = true
    ∧ (createBooking exDB (exReq 7) 0 false).2.toOption.map Booking.seats = some [10]
    ∧ (createBooking (createBooking exDB (exReq 7) 0 false).1 (exReq 8) 0 false).2.isOk
        = true
    ∧ (createBooking (createBooking exDB (exReq 7) 0 false).1 (exReq 8) 0
        false).2.toOption.map Booking.seats = some [10] := by
  decide

/-- C2.  The claim "after a successful createBooking for seats S every
seat in S has status `reserved` with `expiresAt` set" fails on the code:
the call succeeds yet the seat document is left `available` with no
`expiresAt` (the computed deadline is only handed to the socket layer,
never persisted). -/
theorem c2_seats_left_available_after_booking :
    (createBooking exDB (exReq 7) 0 false).2.isOk = true
    ∧ ((createBooking exDB (exReq 7) 0 false).1.seats.find?
        (fun s => s.id == 10)).map Seat.status = some SeatStatus.available
    ∧ ((createBooking exDB (exReq 7) 0 false).1.seats.find?
        (fun s => s.id == 10)).map Seat.expiresAt = some none := by
  decide

/-- C3 counterexample.  Seat 20 is reserved at time 0 with deadline
`HOLD_TTL_MS` for pending booking 5, and the sweeper runs every minute
from time 0 through `HOLD_TTL_MS + CLEANUP_INTERVAL_MS` (instants
`k * 60000`, `k = 0..16`).  The seat is indeed `available` by then, but
the booking is still `reserved`, not `cancelled`: the sweep never touches
the bookings collection, refuting the claim's second half. -/
theorem c3_sweep_never_cancels_booking :
    ((sweepRun c3DB ((List.range 17).map (fun k => k * CLEANUP_INTERVAL_MS))).seats.find?
        (fun s => s.id == 20)).map Seat.status = some SeatStatus.available
    ∧ ¬ (((sweepRun c3DB ((List.range 17).map
          (fun k => k * CLEANUP_INTERVAL_MS))).bookings.find?
        (fun b => b.id == 5)).map Booking.bookingStatus
          = some BookingStatus.cancelled) := by
  decide

/-- C5 counterexample.  After the payment collaborator declines,
`processPayment` stores `paymentStatus = 'failed'`, not the "recoverable
`pending` payment state" the claim describes. -/
theorem c5_failed_payment_not_left_pending :
    ((processPayment c5DB 5 payDeclined).1.bookings.find?
        (fun b => b.id == 5)).map Booking.paymentStatus = some PaymentStatus.failed
    ∧ ¬ (((processPayment c5DB 5 payDeclined).1.bookings.find?
        (fun b => b.id == 5)).map Booking.paymentStatus = some PaymentStatus.pending) := by
  decide

/-- C8.  The claim "for every pair of active showtimes on the same screen
the [start,end) intervals do not overlap" is not enforced: the schema's
unique partial index (whose comment says it prevents overlap on a screen)
only rejects an exactly identical `(screenId, startTime, endTime)`
triple, so two active showtimes on screen 1 covering `[0, 7200000)` and
`[3600000, 10800000)` are both accepted; the exact duplicate of the
first is the only shape rejected.  (`end > start` does hold: the service
sets `end = start + duration + 30` minutes.) -/
theorem c8_overlapping_showtimes_accepted :
    c8run1.2 = .ok c8stA
    ∧ c8run2.2 = .ok c8stB
    ∧ c8stA.isActive = true ∧ c8stB.isActive = true
    ∧ c8stA.screenId = c8stB.screenId
    ∧ overlaps c8stA c8stB
    ∧ c8stA.startTime < c8stA.endTime ∧ c8stB.startTime < c8stB.endTime
    ∧ c8run3.2 = .error .duplicateShowtime := by
  decide

/-- C9 counterexample.  User 7 connects on ws 1, then opens a second
connection ws 2: the code closes ws 1 ('New connection established') and
`sendToUser` delivers only to ws 2 — refuting "direct delivery reaches
all of that user's active connections, and opening a new connection
does not disconnect the existing ones". -/
theorem c9_second_connection_closes_first :
    (1 ∈ (registerClient wsEmpty 7 1).openConns)
    ∧ (1 ∉ (registerClient (registerClient wsEmpty 7 1) 7 2).openConns)
    ∧ sendToUser (registerClient (registerClient wsEmpty 7 1) 7 2) 7 = [2] := by
  decide

/-- C6.  A failing notification dispatch never changes the outcome of
`createBooking`: the run with a failing collaborator is identical —
same store, same returned booking — to the run with a healthy one, since
the notifier (modelled from the spec) logs and swallows dispatch
failures. -/
theorem c6_notify_failure_never_fails_booking (db : DB) (req : BookingRequest)
    (now : Nat) :
    createBooking db req now true = createBooking db req now false := by
  obtain ⟨l1, h1⟩ := notifyStep_ok (db.users.contains req.userId) "booking.created" true
  obtain ⟨l2, h2⟩ := notifyStep_ok (db.users.contains req.userId) "booking.created" false
  unfold createBooking
  rw [h1, h2]

/-- C7.  Releasing a seat that is already `available` (with no owning
booking and no deadline) is a successful no-op: `releaseSeat` returns the
store unchanged together with the seat, and the expiry sweep leaves the
seat exactly as it is. -/
theorem c7_release_on_available_seat_is_noop (db : DB)
    (seatId showtimeId now : Nat) (s : Seat)
    (hfind : db.seats.find? (seatMatches seatId showtimeId) = some s)
    (hav : s.status = .available) (hbk : s.bookingId = none)
    (hex : s.expiresAt = none) :
    releaseSeat db seatId showtimeId = (db, some s)
    ∧ (releaseExpiredSeats db now).seats.find? (seatMatches seatId showtimeId)
        = some s := by
  have hself : ({ s with status := .available, bookingId := none, expiresAt := none }
      : Seat) = s := by
    cases s
    simp_all
  constructor
  · simp only [releaseSeat, hfind]
    rw [hself, replaceFirst_self hfind]
  · have hpred : ∀ x : Seat, seatMatches seatId showtimeId (sweepSeat now x)
        = seatMatches seatId showtimeId x := by
      intro x
      unfold sweepSeat clearSeat seatMatches
      split <;> rfl
    show (db.seats.map (sweepSeat now)).find? (seatMatches seatId showtimeId) = some s
    rw [find?_map_of_pred _ hpred, hfind]
    simp [sweepSeat, isExpired, hav]

/-- Witness for C7 at the concrete store: seat 10 of showtime 1 is
available with no booking and no deadline, and release is a no-op. -/
theorem c7_release_witness :
    (exDB.seats.find? (seatMatches 10 1) = some exSeat
      ∧ exSeat.status = .available ∧ exSeat.bookingId = none
      ∧ exSeat.expiresAt = none)
    ∧ (releaseSeat exDB 10 1 = (exDB, some exSeat)
      ∧ (releaseExpiredSeats exDB 0).seats.find? (seatMatches 10 1) = some exSeat) :=
  ⟨⟨rfl, rfl, rfl, rfl⟩,
   c7_release_on_available_seat_is_noop exDB 10 1 0 exSeat rfl rfl rfl rfl⟩

/-- C10.  A `createBooking` request whose seat list holds a duplicate id,
or an id with no seat of the requested showtime, always throws and leaves
the store untouched: such lists slip through the availability check (it
only matches existing non-available seats) but the pre-save validation
finds fewer seat documents than listed ids and rejects the save, and the
aborted transaction persists nothing. -/
theorem c10_invalid_seat_lists_rejected (db : DB) (req : BookingRequest)
    (now : Nat) (nf : Bool)
    (hn : (db.seats.map Seat.id).Nodup)
    (hbad : ¬ req.seatIds.Nodup ∨ ∃ i ∈ req.seatIds, ∀ s ∈ db.seats,
      ¬(s.id = i ∧ s.showtimeId = req.showtimeId)) :
    (createBooking db req now nf).1 = db
    ∧ ∃ e, (createBooking db req now nf).2 = Except.error e := by
  obtain ⟨e, he⟩ := createBooking_error_of_mismatch db req now nf
    (seatsOfShowtimeIn_length_ne db req.seatIds req.showtimeId hn hbad)
  rw [he]
  exact ⟨rfl, e, rfl⟩

/-- Witness for C10: the duplicate list `[10, 10]` over the one-seat
store is rejected with the store unchanged. -/
theorem c10_duplicate_witness :
    ((exDB.seats.map Seat.id).Nodup ∧ ¬ c10Req.seatIds.Nodup)
    ∧ ((createBooking exDB c10Req 0 false).1 = exDB
      ∧ ∃ e, (createBooking exDB c10Req 0 false).2 = Except.error e) :=
  ⟨⟨by decide, by decide⟩,
   c10_invalid_seat_lists_rejected exDB c10Req 0 false (by decide)
     (Or.inl (by decide))⟩

/-- C4.  For every booking `createBooking` persists, the stored
`totalAmount` is the sum over its seats of the showtime's price for that
seat's class at booking time (each listed id names a genuine seat of the
showtime, whose class the pricing loop used), and a later change to the
showtime's price table rewrites only the showtimes collection — the
stored bookings, and hence the booking's `totalAmount`, are untouched. -/
theorem c4_booking_total_is_class_price_sum (db : DB) (req : BookingRequest)
    (now : Nat) (nf : Bool) (db' : DB) (b : Booking) (st : Showtime)
    (hn : (db.seats.map Seat.id).Nodup)
    (hst : db.showtimes.find? (fun s => s.id == req.showtimeId) = some st)
    (h : createBooking db req now nf = (db', .ok b)) :
    b.totalAmount = (b.seats.map (fun i => priceFor st.price (seatTypeOf db i))).sum
    ∧ (∀ i ∈ b.seats, ∃ s ∈ db.seats, s.id = i ∧ s.showtimeId = req.showtimeId
        ∧ seatTypeOf db i = s.seatType)
    ∧ ∀ p, (updateShowtimePrice db' req.showtimeId p).bookings = db'.bookings := by
  obtain ⟨hseats, htot, hlen, -, -, -⟩ := createBooking_ok_inv hst h
  refine ⟨?_, ?_, fun p => rfl⟩
  · rw [htot, hseats]
    rfl
  · intro i hi
    rw [hseats] at hi
    have hex : ∃ s ∈ db.seats, s.id = i ∧ s.showtimeId = req.showtimeId := by
      by_contra hcon
      push_neg at hcon
      exact seatsOfShowtimeIn_length_ne db req.seatIds req.showtimeId hn
        (Or.inr ⟨i, hi, fun s hs hp => hcon s hs hp.1 hp.2⟩) hlen
    obtain ⟨s, hsmem, hsid, hsshow⟩ := hex
    refine ⟨s, hsmem, hsid, hsshow, ?_⟩
    unfold seatTypeOf
    rw [find?_id_eq_of_mem hn hsmem hsid]

/-- Witness for C4 at the concrete pricing store: seats 11 (standard,
100) and 12 (vip, 200) yield total 300, robust to price updates. -/
theorem c4_pricing_witness :
    ((c4DB.seats.map Seat.id).Nodup
      ∧ c4DB.showtimes.find? (fun s => s.id == c4Req.showtimeId) = some exShowtime
      ∧ createBooking c4DB c4Req 0 false = (c4DBafter, .ok c4Booking))
    ∧ (c4Booking.totalAmount
        = (c4Booking.seats.map (fun i => priceFor exShowtime.price (seatTypeOf c4DB i))).sum
      ∧ (∀ i ∈ c4Booking.seats, ∃ s ∈ c4DB.seats, s.id = i
          ∧ s.showtimeId = c4Req.showtimeId ∧ seatTypeOf c4DB i = s.seatType)
      ∧ ∀ p, (updateShowtimePrice c4DBafter c4Req.showtimeId p).bookings
          = c4DBafter.bookings) :=
  ⟨⟨by decide, rfl, rfl⟩,
   c4_booking_total_is_class_price_sum c4DB c4Req 0 false c4DBafter c4Booking
     exShowtime (by decide) rfl rfl⟩

/-- C5 (amended).  When the payment collaborator declines,
`processPayment` throws `PaymentFailed`; the booking's `bookingStatus`
stays `reserved` (only `paymentStatus` changes — to `failed`, not left
`pending`); no seat and no countdown timer is touched, so the hold keeps
ticking; and a retry is never rejected as already processed, because only
`paymentStatus = completed` triggers that rejection. -/
theorem c5_payment_failure_recoverable (db : DB) (bookingId : Nat)
    (pay : PaymentResult) (bk : Booking)
    (hfind : db.bookings.find? (fun b => b.id == bookingId) = some bk)
    (hnc : bk.paymentStatus ≠ .completed) (hfail : pay.success = false) :
    (processPayment db bookingId pay).2 = .error .paymentFailed
    ∧ (processPayment db bookingId pay).1.bookings.find? (fun b => b.id == bookingId)
        = some { bk with paymentStatus := .failed }
    ∧ ({ bk with paymentStatus := .failed } : Booking).bookingStatus = bk.bookingStatus
    ∧ (processPayment db bookingId pay).1.seats = db.seats
    ∧ (processPayment db bookingId pay).1.timers = db.timers
    ∧ ∀ pay2, (processPayment (processPayment db bookingId pay).1 bookingId pay2).2
        ≠ .error .alreadyProcessed := by
  have hbne : (bk.paymentStatus == PaymentStatus.completed) = false := by
    simpa using hnc
  have hpb : (({ bk with paymentStatus := .failed } : Booking).id == bookingId) = true := by
    simpa using List.find?_some hfind
  have hstep : processPayment db bookingId pay
      = ({ db with
            bookings := replaceFirst (fun b => b.id == bookingId)
              { bk with paymentStatus := .failed } db.bookings },
         .error .paymentFailed) := by
    simp only [processPayment, hfind, hbne, hfail, Bool.false_eq_true, if_false]
  have hfind2 : (replaceFirst (fun b => b.id == bookingId)
        { bk with paymentStatus := .failed } db.bookings).find?
        (fun b => b.id == bookingId) = some { bk with paymentStatus := .failed } :=
    find?_replaceFirst_self hfind hpb
  refine ⟨by rw [hstep], by rw [hstep]; exact hfind2, rfl, by rw [hstep],
    by rw [hstep], ?_⟩
  intro pay2 hcontra
  rw [hstep] at hcontra
  simp only [processPayment, hfind2] at hcontra
  split at hcontra
  · rename_i hcompl
    simp at hcompl
  · split at hcontra
    · simp at hcontra
    · simp at hcontra

/-- Witness for C5 at the concrete store: booking 5 is pending, the
collaborator declines, and every amended conclusion holds. -/
theorem c5_payment_failure_witness :
    (c5DB.bookings.find? (fun b => b.id == 5) = some c5Booking
      ∧ c5Booking.paymentStatus ≠ .completed ∧ payDeclined.success = false)
    ∧ ((processPayment c5DB 5 payDeclined).2 = .error .paymentFailed
      ∧ (processPayment c5DB 5 payDeclined).1.bookings.find? (fun b => b.id == 5)
          = some { c5Booking with paymentStatus := .failed }
      ∧ ({ c5Booking with paymentStatus := .failed } : Booking).bookingStatus
          = c5Booking.bookingStatus
      ∧ (processPayment c5DB 5 payDeclined).1.seats = c5DB.seats
      ∧ (processPayment c5DB 5 payDeclined).1.timers = c5DB.timers
      ∧ ∀ pay2, (processPayment (processPayment c5DB 5 payDeclined).1 5 pay2).2
          ≠ .error .alreadyProcessed) :=
  ⟨⟨rfl, by decide, rfl⟩,
   c5_payment_failure_recoverable c5DB 5 payDeclined c5Booking rfl (by decide) rfl⟩

/-- C3 (amended).  A seat reserved at `T` (deadline `T + HOLD_TTL_MS`)
and never confirmed or released is cleared — `available`, no booking id,
no deadline — by the sweep tick that falls in the minute after the
deadline, i.e. no later than `T + HOLD_TTL_MS + CLEANUP_INTERVAL_MS`;
but no sweep tick ever changes the bookings collection, so the seat's
pending booking is *not* cancelled by the sweeper. -/
theorem c3_expired_seat_swept_but_booking_kept (db : DB) (s : Seat) (T t0 : Nat)
    (hs : s ∈ db.seats) (hres : s.status = .reserved)
    (hex : s.expiresAt = some (T + HOLD_TTL_MS)) (ht0 : t0 ≤ T + HOLD_TTL_MS) :
    ∃ k : Nat,
      T + HOLD_TTL_MS < t0 + k * CLEANUP_INTERVAL_MS
      ∧ t0 + k * CLEANUP_INTERVAL_MS ≤ T + HOLD_TTL_MS + CLEANUP_INTERVAL_MS
      ∧ clearSeat s ∈ (releaseExpiredSeats db (t0 + k * CLEANUP_INTERVAL_MS)).seats
      ∧ ∀ t, (releaseExpiredSeats db t).bookings = db.bookings := by
  refine ⟨(T + HOLD_TTL_MS - t0) / CLEANUP_INTERVAL_MS + 1, ?_, ?_, ?_, fun t => rfl⟩
  · simp only [HOLD_TTL_MS, CLEANUP_INTERVAL_MS] at ht0 ⊢
    omega
  · simp only [HOLD_TTL_MS, CLEANUP_INTERVAL_MS] at ht0 ⊢
    omega
  · have hlt : T + HOLD_TTL_MS
        < t0 + ((T + HOLD_TTL_MS - t0) / CLEANUP_INTERVAL_MS + 1) * CLEANUP_INTERVAL_MS := by
      simp only [HOLD_TTL_MS, CLEANUP_INTERVAL_MS] at ht0 ⊢
      omega
    have hcond : isExpired
        (t0 + ((T + HOLD_TTL_MS - t0) / CLEANUP_INTERVAL_MS + 1) * CLEANUP_INTERVAL_MS)
        s = true := by
      unfold isExpired
      rw [hres, hex]
      simpa using hlt
    show clearSeat s ∈ db.seats.map
      (sweepSeat (t0 + ((T + HOLD_TTL_MS - t0) / CLEANUP_INTERVAL_MS + 1) * CLEANUP_INTERVAL_MS))
    have hsweep : sweepSeat
        (t0 + ((T + HOLD_TTL_MS - t0) / CLEANUP_INTERVAL_MS + 1) * CLEANUP_INTERVAL_MS) s
        = clearSeat s := by
      unfold sweepSeat
      rw [hcond]
      rfl
    rw [← hsweep]
    exact List.mem_map_of_mem _ hs

/-- Witness for C3's amended statement at the concrete store: seat 20
reserved at time 0 with deadline `HOLD_TTL_MS` for pending booking 5. -/
theorem c3_sweep_witness :
    (c3Seat ∈ c3DB.seats ∧ c3Seat.status = .reserved
      ∧ c3Seat.expiresAt = some (0 + HOLD_TTL_MS) ∧ 0 ≤ 0 + HOLD_TTL_MS)
    ∧ ∃ k : Nat,
        0 + HOLD_TTL_MS < 0 + k * CLEANUP_INTERVAL_MS
        ∧ 0 + k * CLEANUP_INTERVAL_MS ≤ 0 + HOLD_TTL_MS + CLEANUP_INTERVAL_MS
        ∧ clearSeat c3Seat ∈ (releaseExpiredSeats c3DB (0 + k * CLEANUP_INTERVAL_MS)).seats
        ∧ ∀ t, (releaseExpiredSeats c3DB t).bookings = c3DB.bookings :=
  ⟨⟨List.mem_singleton_self _, rfl, by decide, by decide⟩,
   c3_expired_seat_swept_but_booking_kept c3DB c3Seat 0 0
     (List.mem_singleton_self _) rfl (by decide) (by decide)⟩

/-- C9 (amended).  The registry keeps at most one connection per user:
registering a new connection for a user who already has one closes the
previous connection, and direct delivery afterwards reaches exactly the
most recent connection. -/
theorem c9_registration_replaces_connection (st : WSState) (u w : Nat)
    (q : Nat × Nat)
    (hfind : st.clients.find? (fun p => p.1 == u) = some q) (hw : q.2 ≠ w) :
    sendToUser (registerClient st u w) u = [w]
    ∧ q.2 ∉ (registerClient st u w).openConns := by
  have hq : (((u, w) : Nat × Nat).1 == u) = true := by simp
  have hreg : registerClient st u w
      = { clients := replaceFirst (fun p => p.1 == u) (u, w) st.clients,
          openConns := w :: st.openConns.filter (fun x => x != q.2) } := by
    simp only [registerClient, hfind]
  constructor
  · unfold sendToUser
    rw [hreg]
    simp only [find?_replaceFirst_self hfind hq]
    simp
  · rw [hreg]
    simp [hw]

/-- Witness for C9's amended statement: user 7's first connection ws 1 is
replaced by ws 2. -/
theorem c9_replacement_witness :
    ((registerClient wsEmpty 7 1).clients.find? (fun p => p.1 == 7) = some (7, 1)
      ∧ ((7, 1) : Nat × Nat).2 ≠ 2)
    ∧ (sendToUser (registerClient (registerClient wsEmpty 7 1) 7 2) 7 = [2]
      ∧ ((7, 1) : Nat × Nat).2 ∉ (registerClient (registerClient wsEmpty 7 1) 7 2).openConns) :=
  ⟨⟨rfl, by decide⟩,
   c9_registration_replaces_connection (registerClient wsEmpty 7 1) 7 2 (7, 1)
     rfl (by decide)⟩

end MovieBackend
